import Mathlib

/-!
Shallow embedding of the market-data client in `src/market.rs` of the
`rs-etrade` repository: the request builder (`Api::quote`,
`Api::option_expire_dates`) and the serde-based response normalizer
(`QuoteResponse`, `OptionExpireDateResponse` and their nested records),
together with theorems settling the specification claims about them.

JSON values are modelled by the inductive `Json` below (mirroring
`serde_json::Value`); numbers are carried as `Rat` (floating-point fields
perform no arithmetic in this layer, only structural pass-through).
Decoders return `Except String α`, mirroring serde's `Result<_, D::Error>`
with the error message carried as a string.
-/

namespace Etrade

/-- Model of `serde_json::Value`. -/
inductive Json where
  | null : Json
  | bool : Bool → Json
  | num : Rat → Json
  | str : String → Json
  | arr : List Json → Json
  | obj : List (String × Json) → Json

/-- Model of `serde_json::Value::get(name)`: field lookup on an object,
`None` on any other variant. -/
def Json.get : Json → String → Option Json
  | .obj fields, name => fields.lookup name
  | _, _ => none

/-- serde: decode an `f64` field (any JSON number). -/
def decodeF64 : Json → Except String Rat
  | .num q => .ok q
  | _ => .error "invalid type: expected f64"

/-- serde: decode an `i64`/`i32` field (an integral JSON number). -/
def decodeInt : Json → Except String Int
  | .num q => if q.den = 1 then .ok q.num else .error "invalid type: expected integer"
  | _ => .error "invalid type: expected integer"

/-- serde: decode a `String` field. -/
def decodeString : Json → Except String String
  | .str s => .ok s
  | _ => .error "invalid type: expected string"

/-- serde: decode a `bool` field. -/
def decodeBool : Json → Except String Bool
  | .bool b => .ok b
  | _ => .error "invalid type: expected bool"

/-- serde semantics of an `Option<T>` struct field under the container-level
`#[serde(default)]` attribute: an absent field and an explicit `null` both
decode to `None`; any other value goes through the field decoder. -/
def getOptField (fields : List (String × Json)) (name : String)
    (dec : Json → Except String α) : Except String (Option α) :=
  match fields.lookup name with
  | none => .ok none
  | some .null => .ok none
  | some v => (dec v).map some

/-- serde semantics of a `Vec<T>` struct field under the container-level
`#[serde(default)]` attribute: an absent field decodes to the empty vector;
a present field must be a JSON array. -/
def getVecField (fields : List (String × Json)) (name : String)
    (dec : Json → Except String α) : Except String (List α) :=
  match fields.lookup name with
  | none => .ok []
  | some (.arr xs) => xs.mapM dec
  | some _ => .error "invalid type: expected a sequence"

/-- serde semantics of a plain `i32` struct field under the container-level
`#[serde(default)]` attribute: an absent field decodes to `0`
(`i32::default()`); a present field must be an integral number. -/
def getIntFieldD (fields : List (String × Json)) (name : String) :
    Except String Int :=
  match fields.lookup name with
  | none => .ok 0
  | some v => decodeInt v

/-- Model of Rust's `str::to_lowercase`, restricted to its ASCII action
(character-wise lowercasing); the accepted keyword encodings this client
compares against are all ASCII. -/
def rustToLowercase (s : String) : String :=
  String.mk (s.data.map Char.toLower)

/-- `deserialize_ah_flag` (src/market.rs lines 8-28): tolerant decoder for
the after-hours flag, accepting a native boolean, a case-insensitive string
encoding, or null. -/
def deserialize_ah_flag : Json → Except String (Option Bool)
  | .bool b => .ok (some b)
  | .str s =>
      let l := rustToLowercase s
      if l = "true" ∨ l = "1" ∨ l = "yes" then .ok (some true)
      else if l = "false" ∨ l = "0" ∨ l = "no" then .ok (some false)
      else .error ("Invalid boolean string: " ++ s)
  | .null => .ok none
  | _ => .error "Expected boolean or string"

/-! ### The typed response tree (src/market.rs lines 131-411)

Each Rust struct derives `Default` and carries the container attributes
`#[serde(rename_all = "camelCase", default)]`; the Lean structures give
every field its `Default`-derived value (`none` for `Option`, `[]` for
`Vec`, `0` for `i32`), so `{}` is the derived default, and each decoder
looks fields up under the exact wire key (camelCase plus the explicit
`#[serde(rename = ...)]` exceptions). -/

/-- `OptionGreeks` (lines 269-279). -/
structure OptionGreeks where
  rho : Option Rat := none
  vega : Option Rat := none
  theta : Option Rat := none
  delta : Option Rat := none
  gamma : Option Rat := none
  iv : Option Rat := none
  current_value : Option Bool := none

def decodeOptionGreeks : Json → Except String OptionGreeks
  | .obj fields => do
      let rho ← getOptField fields "rho" decodeF64
      let vega ← getOptField fields "vega" decodeF64
      let theta ← getOptField fields "theta" decodeF64
      let delta ← getOptField fields "delta" decodeF64
      let gamma ← getOptField fields "gamma" decodeF64
      let iv ← getOptField fields "iv" decodeF64
      let current_value ← getOptField fields "currentValue" decodeBool
      .ok { rho, vega, theta, delta, gamma, iv, current_value }
  | _ => .error "invalid type: expected struct OptionGreeks"

/-- `Values` (lines 398-404). -/
structure Values where
  low : Option String := none
  high : Option String := none
  percent : Option String := none

def decodeValues : Json → Except String Values
  | .obj fields => do
      let low ← getOptField fields "low" decodeString
      let high ← getOptField fields "high" decodeString
      let percent ← getOptField fields "percent" decodeString
      .ok { low, high, percent }
  | _ => .error "invalid type: expected struct Values"

/-- `SaleChargeValues` (lines 406-411). -/
structure SaleChargeValues where
  lowhigh : Option String := none
  percent : Option String := none

def decodeSaleChargeValues : Json → Except String SaleChargeValues
  | .obj fields => do
      let lowhigh ← getOptField fields "lowhigh" decodeString
      let percent ← getOptField fields "percent" decodeString
      .ok { lowhigh, percent }
  | _ => .error "invalid type: expected struct SaleChargeValues"

/-- `NetAsset` (lines 376-381). -/
structure NetAsset where
  value : Option Rat := none
  as_of_date : Option Int := none

def decodeNetAsset : Json → Except String NetAsset
  | .obj fields => do
      let value ← getOptField fields "value" decodeF64
      let as_of_date ← getOptField fields "asOfDate" decodeInt
      .ok { value, as_of_date }
  | _ => .error "invalid type: expected struct NetAsset"

/-- `Redemption` (lines 383-396). -/
structure Redemption where
  min_month : Option String := none
  fee_percent : Option String := none
  is_front_end : Option String := none
  front_end_values : List Values := []
  redemption_duration_type : Option String := none
  is_sales : Option String := none
  sales_duration_type : Option String := none
  sales_values : List Values := []

def decodeRedemption : Json → Except String Redemption
  | .obj fields => do
      let min_month ← getOptField fields "minMonth" decodeString
      let fee_percent ← getOptField fields "feePercent" decodeString
      let is_front_end ← getOptField fields "isFrontEnd" decodeString
      let front_end_values ← getVecField fields "frontEndValues" decodeValues
      let redemption_duration_type ← getOptField fields "redemptionDurationType" decodeString
      let is_sales ← getOptField fields "isSales" decodeString
      let sales_duration_type ← getOptField fields "salesDurationType" decodeString
      let sales_values ← getVecField fields "salesValues" decodeValues
      .ok { min_month, fee_percent, is_front_end, front_end_values,
            redemption_duration_type, is_sales, sales_duration_type, sales_values }
  | _ => .error "invalid type: expected struct Redemption"

/-- Modelled from the spec: the `Messages` container type is imported from
the crate root (`use crate::{.., Messages, ..}`) and its definition is not
part of this source file.  Per the spec it is a container of provider
message strings (under a "Message" array on the wire) supporting an
"is empty" query, and it decodes to an empty-but-present container when
the field is absent. -/
structure Messages where
  message : List String := []

def Messages.is_empty (m : Messages) : Bool := m.message.isEmpty

def decodeMessages : Json → Except String Messages
  | .obj fields => do
      let message ← getVecField fields "Message" decodeString
      .ok { message }
  | _ => .error "invalid type: expected struct Messages"

/-- Modelled from the spec: the `Product` type is imported from the crate
root (`crate::Product`) and its definition is not part of this source
file.  Per the spec it is "a product identity" attached to a quote
record; it is modelled as an attribute bag of optional identity fields. -/
structure Product where
  symbol : Option String := none
  security_type : Option String := none

def decodeProduct : Json → Except String Product
  | .obj fields => do
      let symbol ← getOptField fields "symbol" decodeString
      let security_type ← getOptField fields "securityType" decodeString
      .ok { symbol, security_type }
  | _ => .error "invalid type: expected struct Product"

/-- `AllQuoteDetails` (lines 189-217). -/
structure AllQuoteDetails where
  ask : Option Rat := none
  bid : Option Rat := none
  last_trade : Option Rat := none
  company_name : Option String := none
  high : Option Rat := none
  low : Option Rat := none
  «open» : Option Rat := none
  previous_close : Option Rat := none
  total_volume : Option Int := none
  change_close : Option Rat := none
  change_close_percentage : Option Rat := none
  days_to_expiration : Option Int := none
  open_interest : Option Int := none
  option_style : Option String := none
  option_underlier : Option String := none
  intrinsic_value : Option Rat := none
  time_premium : Option Rat := none
  option_multiplier : Option Rat := none
  contract_size : Option Rat := none
  expiration_date : Option Int := none
  delta : Option Rat := none
  gamma : Option Rat := none
  theta : Option Rat := none
  vega : Option Rat := none
  implied_volatility : Option Rat := none

def decodeAllQuoteDetails : Json → Except String AllQuoteDetails
  | .obj fields => do
      let ask ← getOptField fields "ask" decodeF64
      let bid ← getOptField fields "bid" decodeF64
      let last_trade ← getOptField fields "lastTrade" decodeF64
      let company_name ← getOptField fields "companyName" decodeString
      let high ← getOptField fields "high" decodeF64
      let low ← getOptField fields "low" decodeF64
      let «open» ← getOptField fields "open" decodeF64
      let previous_close ← getOptField fields "previousClose" decodeF64
      let total_volume ← getOptField fields "totalVolume" decodeInt
      let change_close ← getOptField fields "changeClose" decodeF64
      let change_close_percentage ← getOptField fields "changeClosePercentage" decodeF64
      let days_to_expiration ← getOptField fields "daysToExpiration" decodeInt
      let open_interest ← getOptField fields "openInterest" decodeInt
      let option_style ← getOptField fields "optionStyle" decodeString
      let option_underlier ← getOptField fields "optionUnderlier" decodeString
      let intrinsic_value ← getOptField fields "intrinsicValue" decodeF64
      let time_premium ← getOptField fields "timePremium" decodeF64
      let option_multiplier ← getOptField fields "optionMultiplier" decodeF64
      let contract_size ← getOptField fields "contractSize" decodeF64
      let expiration_date ← getOptField fields "expirationDate" decodeInt
      let delta ← getOptField fields "delta" decodeF64
      let gamma ← getOptField fields "gamma" decodeF64
      let theta ← getOptField fields "theta" decodeF64
      let vega ← getOptField fields "vega" decodeF64
      let implied_volatility ← getOptField fields "impliedVolatility" decodeF64
      .ok { ask, bid, last_trade, company_name, high, low, «open»,
            previous_close, total_volume, change_close, change_close_percentage,
            days_to_expiration, open_interest, option_style, option_underlier,
            intrinsic_value, time_premium, option_multiplier, contract_size,
            expiration_date, delta, gamma, theta, vega, implied_volatility }
  | _ => .error "invalid type: expected struct AllQuoteDetails"

/-- `FundamentalQuoteDetails` (lines 219-230). -/
structure FundamentalQuoteDetails where
  company_name : Option String := none
  eps : Option Rat := none
  est_earnings : Option Rat := none
  high52 : Option Rat := none
  last_trade : Option Rat := none
  low52 : Option Rat := none
  symbol_description : Option String := none
  volume_10_day : Option Int := none

def decodeFundamentalQuoteDetails : Json → Except String FundamentalQuoteDetails
  | .obj fields => do
      let company_name ← getOptField fields "companyName" decodeString
      let eps ← getOptField fields "eps" decodeF64
      let est_earnings ← getOptField fields "estEarnings" decodeF64
      let high52 ← getOptField fields "high52" decodeF64
      let last_trade ← getOptField fields "lastTrade" decodeF64
      let low52 ← getOptField fields "low52" decodeF64
      let symbol_description ← getOptField fields "symbolDescription" decodeString
      let volume_10_day ← getOptField fields "volume10Day" decodeInt
      .ok { company_name, eps, est_earnings, high52, last_trade, low52,
            symbol_description, volume_10_day }
  | _ => .error "invalid type: expected struct FundamentalQuoteDetails"

/-- `IntraQuoteDetails` (lines 232-244). -/
structure IntraQuoteDetails where
  ask : Option Rat := none
  bid : Option Rat := none
  change_close : Option Rat := none
  change_close_percentage : Option Rat := none
  company_name : Option String := none
  high : Option Rat := none
  last_trade : Option Rat := none
  low : Option Rat := none
  total_volume : Option Int := none

def decodeIntraQuoteDetails : Json → Except String IntraQuoteDetails
  | .obj fields => do
      let ask ← getOptField fields "ask" decodeF64
      let bid ← getOptField fields "bid" decodeF64
      let change_close ← getOptField fields "changeClose" decodeF64
      let change_close_percentage ← getOptField fields "changeClosePercentage" decodeF64
      let company_name ← getOptField fields "companyName" decodeString
      let high ← getOptField fields "high" decodeF64
      let last_trade ← getOptField fields "lastTrade" decodeF64
      let low ← getOptField fields "low" decodeF64
      let total_volume ← getOptField fields "totalVolume" decodeInt
      .ok { ask, bid, change_close, change_close_percentage, company_name,
            high, last_trade, low, total_volume }
  | _ => .error "invalid type: expected struct IntraQuoteDetails"

/-- `OptionQuoteDetails` (lines 246-267). -/
structure OptionQuoteDetails where
  ask : Option Rat := none
  ask_size : Option Int := none
  bid : Option Rat := none
  bid_size : Option Int := none
  company_name : Option String := none
  days_to_expiration : Option Int := none
  last_trade : Option Rat := none
  open_interest : Option Int := none
  option_previous_bid_price : Option Rat := none
  option_previous_ask_price : Option Rat := none
  osi_key : Option String := none
  intrinsic_value : Option Rat := none
  time_premium : Option Rat := none
  option_multiplier : Option Rat := none
  contract_size : Option Rat := none
  symbol_description : Option String := none
  option_greeks : Option OptionGreeks := none

def decodeOptionQuoteDetails : Json → Except String OptionQuoteDetails
  | .obj fields => do
      let ask ← getOptField fields "ask" decodeF64
      let ask_size ← getOptField fields "askSize" decodeInt
      let bid ← getOptField fields "bid" decodeF64
      let bid_size ← getOptField fields "bidSize" decodeInt
      let company_name ← getOptField fields "companyName" decodeString
      let days_to_expiration ← getOptField fields "daysToExpiration" decodeInt
      let last_trade ← getOptField fields "lastTrade" decodeF64
      let open_interest ← getOptField fields "openInterest" decodeInt
      let option_previous_bid_price ← getOptField fields "optionPreviousBidPrice" decodeF64
      let option_previous_ask_price ← getOptField fields "optionPreviousAskPrice" decodeF64
      let osi_key ← getOptField fields "osiKey" decodeString
      let intrinsic_value ← getOptField fields "intrinsicValue" decodeF64
      let time_premium ← getOptField fields "timePremium" decodeF64
      let option_multiplier ← getOptField fields "optionMultiplier" decodeF64
      let contract_size ← getOptField fields "contractSize" decodeF64
      let symbol_description ← getOptField fields "symbolDescription" decodeString
      let option_greeks ← getOptField fields "OptionGreeks" decodeOptionGreeks
      .ok { ask, ask_size, bid, bid_size, company_name, days_to_expiration,
            last_trade, open_interest, option_previous_bid_price,
            option_previous_ask_price, osi_key, intrinsic_value, time_premium,
            option_multiplier, contract_size, symbol_description, option_greeks }
  | _ => .error "invalid type: expected struct OptionQuoteDetails"

/-- `Week52QuoteDetails` (lines 281-293). -/
structure Week52QuoteDetails where
  annual_dividend : Option Rat := none
  company_name : Option String := none
  high52 : Option Rat := none
  last_trade : Option Rat := none
  low52 : Option Rat := none
  perf_12_months : Option Rat := none
  previous_close : Option Rat := none
  symbol_description : Option String := none
  total_volume : Option Int := none

def decodeWeek52QuoteDetails : Json → Except String Week52QuoteDetails
  | .obj fields => do
      let annual_dividend ← getOptField fields "annualDividend" decodeF64
      let company_name ← getOptField fields "companyName" decodeString
      let high52 ← getOptField fields "high52" decodeF64
      let last_trade ← getOptField fields "lastTrade" decodeF64
      let low52 ← getOptField fields "low52" decodeF64
      let perf_12_months ← getOptField fields "perf12Months" decodeF64
      let previous_close ← getOptField fields "previousClose" decodeF64
      let symbol_description ← getOptField fields "symbolDescription" decodeString
      let total_volume ← getOptField fields "totalVolume" decodeInt
      .ok { annual_dividend, company_name, high52, last_trade, low52,
            perf_12_months, previous_close, symbol_description, total_volume }
  | _ => .error "invalid type: expected struct Week52QuoteDetails"

/-- `MutualFund` (lines 295-374). -/
structure MutualFund where
  symbol_description : Option String := none
  cusip : Option String := none
  change_close : Option Rat := none
  previous_close : Option Rat := none
  transaction_fee : Option Rat := none
  early_redemption_fee : Option String := none
  availability : Option String := none
  initial_investment : Option Rat := none
  subsequent_investment : Option Rat := none
  fund_family : Option String := none
  fund_name : Option String := none
  change_close_percentage : Option Rat := none
  time_of_last_trade : Option Int := none
  net_asset_value : Option Rat := none
  public_offer_price : Option Rat := none
  net_expense_ratio : Option Rat := none
  gross_expense_ratio : Option Rat := none
  order_cutoff_time : Option Int := none
  sales_charge : Option String := none
  initial_ira_investment : Option Rat := none
  subsequent_ira_investment : Option Rat := none
  net_assets : Option NetAsset := none
  fund_inception_date : Option Int := none
  average_annual_returns : Option Rat := none
  seven_day_current_yield : Option Rat := none
  annual_total_return : Option Rat := none
  weighted_average_maturity : Option Rat := none
  average_annual_returns_1_yr : Option Rat := none
  average_annual_returns_3_yr : Option Rat := none
  average_annual_returns_5_yr : Option Rat := none
  average_annual_returns_10_yr : Option Rat := none
  high52 : Option Rat := none
  low52 : Option Rat := none
  week_52_low_date : Option Int := none
  week_52_hi_date : Option Int := none
  exchange_name : Option String := none
  since_inception : Option Rat := none
  quarterly_since_inception : Option Rat := none
  last_trade : Option Rat := none
  actual_12b1_fee : Option Rat := none
  performance_as_of_date : Option String := none
  qtrly_performance_as_of_date : Option String := none
  redemption : Option Redemption := none
  morning_star_category : Option String := none
  monthly_trailing_return_1y : Option Rat := none
  monthly_trailing_return_3y : Option Rat := none
  monthly_trailing_return_5y : Option Rat := none
  monthly_trailing_return_10y : Option Rat := none
  etrade_early_redemption_fee : Option String := none
  max_sales_load : Option Rat := none
  monthly_trailing_return_ytd : Option Rat := none
  monthly_trailing_return_1m : Option Rat := none
  monthly_trailing_return_3m : Option Rat := none
  monthly_trailing_return_6m : Option Rat := none
  qtrly_trailing_return_ytd : Option Rat := none
  qtrly_trailing_return_1m : Option Rat := none
  qtrly_trailing_return_3m : Option Rat := none
  qtrly_trailing_return_6m : Option Rat := none
  deferred_sales_changes : List SaleChargeValues := []
  frontend_sales_changes : List SaleChargeValues := []
  exchange_code : Option String := none

def decodeMutualFund : Json → Except String MutualFund
  | .obj fields => do
      let symbol_description ← getOptField fields "symbolDescription" decodeString
      let cusip ← getOptField fields "cusip" decodeString
      let change_close ← getOptField fields "changeClose" decodeF64
      let previous_close ← getOptField fields "previousClose" decodeF64
      let transaction_fee ← getOptField fields "transactionFee" decodeF64
      let early_redemption_fee ← getOptField fields "earlyRedemptionFee" decodeString
      let availability ← getOptField fields "availability" decodeString
      let initial_investment ← getOptField fields "initialInvestment" decodeF64
      let subsequent_investment ← getOptField fields "subsequentInvestment" decodeF64
      let fund_family ← getOptField fields "fundFamily" decodeString
      let fund_name ← getOptField fields "fundName" decodeString
      let change_close_percentage ← getOptField fields "changeClosePercentage" decodeF64
      let time_of_last_trade ← getOptField fields "timeOfLastTrade" decodeInt
      let net_asset_value ← getOptField fields "netAssetValue" decodeF64
      let public_offer_price ← getOptField fields "publicOfferPrice" decodeF64
      let net_expense_ratio ← getOptField fields "netExpenseRatio" decodeF64
      let gross_expense_ratio ← getOptField fields "grossExpenseRatio" decodeF64
      let order_cutoff_time ← getOptField fields "orderCutoffTime" decodeInt
      let sales_charge ← getOptField fields "salesCharge" decodeString
      let initial_ira_investment ← getOptField fields "initialIraInvestment" decodeF64
      let subsequent_ira_investment ← getOptField fields "subsequentIraInvestment" decodeF64
      let net_assets ← getOptField fields "netAssets" decodeNetAsset
      let fund_inception_date ← getOptField fields "fundInceptionDate" decodeInt
      let average_annual_returns ← getOptField fields "averageAnnualReturns" decodeF64
      let seven_day_current_yield ← getOptField fields "sevenDayCurrentYield" decodeF64
      let annual_total_return ← getOptField fields "annualTotalReturn" decodeF64
      let weighted_average_maturity ← getOptField fields "weightedAverageMaturity" decodeF64
      let average_annual_returns_1_yr ← getOptField fields "averageAnnualReturns1Yr" decodeF64
      let average_annual_returns_3_yr ← getOptField fields "averageAnnualReturns3Yr" decodeF64
      let average_annual_returns_5_yr ← getOptField fields "averageAnnualReturns5Yr" decodeF64
      let average_annual_returns_10_yr ← getOptField fields "averageAnnualReturns10Yr" decodeF64
      let high52 ← getOptField fields "high52" decodeF64
      let low52 ← getOptField fields "low52" decodeF64
      let week_52_low_date ← getOptField fields "week52LowDate" decodeInt
      let week_52_hi_date ← getOptField fields "week52HiDate" decodeInt
      let exchange_name ← getOptField fields "exchangeName" decodeString
      let since_inception ← getOptField fields "sinceInception" decodeF64
      let quarterly_since_inception ← getOptField fields "quarterlySinceInception" decodeF64
      let last_trade ← getOptField fields "lastTrade" decodeF64
      let actual_12b1_fee ← getOptField fields "actual12B1Fee" decodeF64
      let performance_as_of_date ← getOptField fields "performanceAsOfDate" decodeString
      let qtrly_performance_as_of_date ← getOptField fields "qtrlyPerformanceAsOfDate" decodeString
      let redemption ← getOptField fields "redemption" decodeRedemption
      let morning_star_category ← getOptField fields "morningStarCategory" decodeString
      let monthly_trailing_return_1y ← getOptField fields "monthlyTrailingReturn1Y" decodeF64
      let monthly_trailing_return_3y ← getOptField fields "monthlyTrailingReturn3Y" decodeF64
      let monthly_trailing_return_5y ← getOptField fields "monthlyTrailingReturn5Y" decodeF64
      let monthly_trailing_return_10y ← getOptField fields "monthlyTrailingReturn10Y" decodeF64
      let etrade_early_redemption_fee ← getOptField fields "etradeEarlyRedemptionFee" decodeString
      let max_sales_load ← getOptField fields "maxSalesLoad" decodeF64
      let monthly_trailing_return_ytd ← getOptField fields "monthlyTrailingReturnYTD" decodeF64
      let monthly_trailing_return_1m ← getOptField fields "monthlyTrailingReturn1M" decodeF64
      let monthly_trailing_return_3m ← getOptField fields "monthlyTrailingReturn3M" decodeF64
      let monthly_trailing_return_6m ← getOptField fields "monthlyTrailingReturn6M" decodeF64
      let qtrly_trailing_return_ytd ← getOptField fields "qtrlyTrailingReturnYTD" decodeF64
      let qtrly_trailing_return_1m ← getOptField fields "qtrlyTrailingReturn1M" decodeF64
      let qtrly_trailing_return_3m ← getOptField fields "qtrlyTrailingReturn3M" decodeF64
      let qtrly_trailing_return_6m ← getOptField fields "qtrlyTrailingReturn6M" decodeF64
      let deferred_sales_changes ← getVecField fields "deferredSalesChanges" decodeSaleChargeValues
      let frontend_sales_changes ← getVecField fields "frontendSalesChanges" decodeSaleChargeValues
      let exchange_code ← getOptField fields "exchangeCode" decodeString
      .ok { symbol_description, cusip, change_close, previous_close,
            transaction_fee, early_redemption_fee, availability,
            initial_investment, subsequent_investment, fund_family, fund_name,
            change_close_percentage, time_of_last_trade, net_asset_value,
            public_offer_price, net_expense_ratio, gross_expense_ratio,
            order_cutoff_time, sales_charge, initial_ira_investment,
            subsequent_ira_investment, net_assets, fund_inception_date,
            average_annual_returns, seven_day_current_yield,
            annual_total_return, weighted_average_maturity,
            average_annual_returns_1_yr, average_annual_returns_3_yr,
            average_annual_returns_5_yr, average_annual_returns_10_yr,
            high52, low52, week_52_low_date, week_52_hi_date, exchange_name,
            since_inception, quarterly_since_inception, last_trade,
            actual_12b1_fee, performance_as_of_date,
            qtrly_performance_as_of_date, redemption, morning_star_category,
            monthly_trailing_return_1y, monthly_trailing_return_3y,
            monthly_trailing_return_5y, monthly_trailing_return_10y,
            etrade_early_redemption_fee, max_sales_load,
            monthly_trailing_return_ytd, monthly_trailing_return_1m,
            monthly_trailing_return_3m, monthly_trailing_return_6m,
            qtrly_trailing_return_ytd, qtrly_trailing_return_1m,
            qtrly_trailing_return_3m, qtrly_trailing_return_6m,
            deferred_sales_changes, frontend_sales_changes, exchange_code }
  | _ => .error "invalid type: expected struct MutualFund"

/-- `QuoteData` (lines 158-187).  The `ah_flag` field is decoded through
`deserialize_ah_flag` when present (`#[serde(deserialize_with = ...)]`), and
falls back to the container default `none` when absent. -/
structure QuoteData where
  all : Option AllQuoteDetails := none
  date_time : Option String := none
  date_time_utc : Option Int := none
  quote_status : Option String := none
  ah_flag : Option Bool := none
  error_message : Option String := none
  fundamental : Option FundamentalQuoteDetails := none
  intraday : Option IntraQuoteDetails := none
  option : Option OptionQuoteDetails := none
  product : Option Product := none
  week52 : Option Week52QuoteDetails := none
  mutual_fund : Option MutualFund := none
  time_zone : Option String := none
  dst_flag : Option Bool := none
  has_mini_options : Option Bool := none

def decodeQuoteData : Json → Except String QuoteData
  | .obj fields => do
      let all ← getOptField fields "All" decodeAllQuoteDetails
      let date_time ← getOptField fields "dateTime" decodeString
      let date_time_utc ← getOptField fields "dateTimeUTC" decodeInt
      let quote_status ← getOptField fields "quoteStatus" decodeString
      let ah_flag ←
        match fields.lookup "ahFlag" with
        | none => .ok none
        | some v => deserialize_ah_flag v
      let error_message ← getOptField fields "errorMessage" decodeString
      let fundamental ← getOptField fields "fundamental" decodeFundamentalQuoteDetails
      let intraday ← getOptField fields "intraday" decodeIntraQuoteDetails
      let option ← getOptField fields "option" decodeOptionQuoteDetails
      let product ← getOptField fields "Product" decodeProduct
      let week52 ← getOptField fields "week52" decodeWeek52QuoteDetails
      let mutual_fund ← getOptField fields "MutualFund" decodeMutualFund
      let time_zone ← getOptField fields "timeZone" decodeString
      let dst_flag ← getOptField fields "dstFlag" decodeBool
      let has_mini_options ← getOptField fields "hasMiniOptions" decodeBool
      .ok { all, date_time, date_time_utc, quote_status, ah_flag,
            error_message, fundamental, intraday, option, product, week52,
            mutual_fund, time_zone, dst_flag, has_mini_options }
  | _ => .error "invalid type: expected struct QuoteData"

/-- `QuoteResponse` (lines 131-138).  On the decode path the `quote_data`
field reads the renamed key `"QuoteData"`, while the `messages` field reads
the camelCase key `"messages"`. -/
structure QuoteResponse where
  quote_data : List QuoteData := []
  messages : Messages := {}

def decodeQuoteResponse : Json → Except String QuoteResponse
  | .obj fields => do
      let quote_data ← getVecField fields "QuoteData" decodeQuoteData
      let messages ←
        match fields.lookup "messages" with
        | none => .ok ({} : Messages)
        | some v => decodeMessages v
      .ok { quote_data, messages }
  | _ => .error "invalid type: expected struct QuoteResponse"

/-- `ExpirationDate` (lines 149-156): the three calendar components are
plain `i32` fields, so under the container `default` attribute an absent
component decodes to `0`. -/
structure ExpirationDate where
  year : Int := 0
  month : Int := 0
  day : Int := 0
  expiry_type : Option String := none

def decodeExpirationDate : Json → Except String ExpirationDate
  | .obj fields => do
      let year ← getIntFieldD fields "year"
      let month ← getIntFieldD fields "month"
      let day ← getIntFieldD fields "day"
      let expiry_type ← getOptField fields "expiryType" decodeString
      .ok { year, month, day, expiry_type }
  | _ => .error "invalid type: expected struct ExpirationDate"

/-- `OptionExpireDateResponse` (lines 140-147). -/
structure OptionExpireDateResponse where
  expiration_dates : List ExpirationDate := []
  messages : Messages := {}

def decodeOptionExpireDateResponse : Json → Except String OptionExpireDateResponse
  | .obj fields => do
      let expiration_dates ← getVecField fields "ExpirationDate" decodeExpirationDate
      let messages ←
        match fields.lookup "messages" with
        | none => .ok ({} : Messages)
        | some v => decodeMessages v
      .ok { expiration_dates, messages }
  | _ => .error "invalid type: expected struct OptionExpireDateResponse"

/-! ### Request types (src/market.rs lines 79-129) -/

/-- `ExpiryType` (lines 95-106). -/
inductive ExpiryType where
  | Unspecified | All | Monthly | Weekly | Daily | Quarterly | Vix | MonthEnd
deriving DecidableEq

/-- `impl Default for ExpiryType` (lines 108-112). -/
def ExpiryType.default : ExpiryType := ExpiryType.All

/-- `DetailFlag` (lines 114-123). -/
inductive DetailFlag where
  | ALL | FUNDAMENTAL | INTRADAY | OPTIONS | WEEK_52 | MF_DETAIL
deriving DecidableEq

/-- `impl Default for DetailFlag` (lines 125-129). -/
def DetailFlag.default : DetailFlag := DetailFlag.ALL

/-- `GetQuotesRequest` (lines 79-86). -/
structure GetQuotesRequest where
  detail_flag : Option DetailFlag := none
  require_earnings_date : Option Bool := none
  override_symbol_count : Option Bool := none
  skip_mini_options_check : Option Bool := none

/-- `GetOptionExpireDatesRequest` (lines 88-93). -/
structure GetOptionExpireDatesRequest where
  symbol : String := ""
  expiry_type : Option ExpiryType := none

/-- The expiration-type filter a request carries once the source's
`Default` impl is applied to an unspecified (`None`) filter: the spec's
"effective expiration-type filter". -/
def GetOptionExpireDatesRequest.effectiveExpiryType
    (r : GetOptionExpireDatesRequest) : ExpiryType :=
  r.expiry_type.getD ExpiryType.default

/-! ### The `Api` operations (src/market.rs lines 34-77) -/

/-- Rust's `[&str]::join(sep)`: the elements concatenated verbatim with
`sep` between consecutive elements. -/
def joinWith (sep : String) : List String → String
  | [] => ""
  | [x] => x
  | x :: xs => x ++ sep ++ joinWith sep xs

/-- The outcome of running a piece of Rust code: a returned `Ok` value, a
returned `Err` (carrying the error message), or a panic (`unwrap` on
`None` aborts instead of returning). -/
inductive RustOutcome (α : Type) where
  | ok : α → RustOutcome α
  | err : String → RustOutcome α
  | panicked : String → RustOutcome α
deriving DecidableEq

/-- The request `Api::quote` prepares before dispatch: HTTP method and
path (query-string encoding of the optional params is the excluded
transport collaborator's job). -/
structure QuoteHttpRequest where
  method : String
  path : String

/-- The synchronous pre-network phase of `Api::quote` (lines 46-52): the
symbol-count guard followed by path construction. -/
def build_quote_request (symbols : List String) : Except String QuoteHttpRequest :=
  if symbols.length > 25 then
    .error "Maximum of 25 symbols allowed"
  else
    .ok { method := "GET", path := "/v1/market/quote/" ++ joinWith "," symbols }

/-- The post-transport step of `Api::quote` (line 58):
`val.get("QuoteResponse").unwrap()` followed by deserialization.  When the
envelope field is absent, `Option::unwrap` on `None` panics. -/
def quoteDecodeStep (val : Json) : RustOutcome QuoteResponse :=
  match val.get "QuoteResponse" with
  | none => .panicked "called Option::unwrap on a None value"
  | some v =>
    match decodeQuoteResponse v with
    | .ok r => .ok r
    | .error e => .err e

/-- The post-transport step of `Api::option_expire_dates` (line 75):
`val.get("OptionExpireDateResponse").unwrap()` followed by
deserialization. -/
def optionExpireDecodeStep (val : Json) : RustOutcome OptionExpireDateResponse :=
  match val.get "OptionExpireDateResponse" with
  | none => .panicked "called Option::unwrap on a None value"
  | some v =>
    match decodeOptionExpireDateResponse v with
    | .ok r => .ok r
    | .error e => .err e

/-- `Api::quote` (lines 40-59) with the transport collaborator abstracted
as a function from the request path to the raw JSON it returns: validate
the symbol count, build the path, dispatch, decode the envelope. -/
def quote_pipeline (symbols : List String) (send : String → Json) :
    RustOutcome QuoteResponse :=
  match build_quote_request symbols with
  | .error e => .err e
  | .ok req => quoteDecodeStep (send req.path)

/-- The minimal quote-data document of the repository's own test
`test_quote_response_with_missing_fields`: only `All.companyName` and
`All.lastTrade` are present. -/
def minimalQuoteData : Json :=
  .obj [("All", .obj [("companyName", .str "TEST COMPANY"), ("lastTrade", .num 100)])]

/-! ### Helper lemmas -/

/-- Characterize the char-level content of a comma join: it is the
`List.intercalate` of the symbols' character lists with `','`. -/
theorem joinWith_data (symbols : List String) :
    (joinWith "," symbols).data = [','].intercalate (symbols.map String.data) := by
  induction symbols with
  | nil => simp [joinWith, List.intercalate]
  | cons x xs ih =>
    cases xs with
    | nil => simp [joinWith, List.intercalate, List.intersperse]
    | cons y ys =>
      simp only [joinWith, List.map, List.intercalate, List.intersperse,
        String.data_append, List.flatten] at *
      simp [ih]

/-- Inversion for a successful `Except` bind. -/
theorem except_bind_ok {α β : Type} {x : Except String α} {f : α → Except String β}
    {b : β} (h : (x >>= f) = .ok b) : ∃ a, x = .ok a ∧ f a = .ok b := by
  cases x with
  | error e =>
      rw [show (Except.error e >>= f) = (.error e : Except String β) from rfl] at h
      cases h
  | ok a => exact ⟨a, rfl, by simpa only [Bind.bind, Except.bind] using h⟩

/-! ### Claims -/

/-- Claim C1 (code bug): on a raw JSON document lacking the top-level
envelope field, `Api::quote` and `Api::option_expire_dates` do not return
a structured missing-envelope decode error to the caller — the
`val.get(envelope).unwrap()` call panics (`Option::unwrap` on `None`).
Evaluated at the failing input `{}` and at an envelope key of the wrong
case. -/
theorem envelope_missing_panics :
    quoteDecodeStep (.obj []) = .panicked "called Option::unwrap on a None value" ∧
    quoteDecodeStep (.obj [("quoteResponse", .obj [])]) =
      .panicked "called Option::unwrap on a None value" ∧
    optionExpireDecodeStep (.obj [("QuoteResponse", .obj [])]) =
      .panicked "called Option::unwrap on a None value" :=
  ⟨rfl, rfl, rfl⟩

/-- Claim C2: the after-hours flag decoder maps native booleans to
`some`, the case-insensitive strings true/1/yes to `some true`,
false/0/no to `some false`, null to `none`, and every other string (one
whose lowercasing is none of the six accepted encodings) to a decode
error. -/
theorem ah_flag_tolerant_coercion :
    (∀ b, deserialize_ah_flag (.bool b) = .ok (some b)) ∧
    (∀ s, (rustToLowercase s = "true" ∨ rustToLowercase s = "1" ∨ rustToLowercase s = "yes") →
      deserialize_ah_flag (.str s) = .ok (some true)) ∧
    (∀ s, (rustToLowercase s = "false" ∨ rustToLowercase s = "0" ∨ rustToLowercase s = "no") →
      deserialize_ah_flag (.str s) = .ok (some false)) ∧
    deserialize_ah_flag .null = .ok none ∧
    (∀ s, ¬(rustToLowercase s = "true" ∨ rustToLowercase s = "1" ∨ rustToLowercase s = "yes") →
      ¬(rustToLowercase s = "false" ∨ rustToLowercase s = "0" ∨ rustToLowercase s = "no") →
      deserialize_ah_flag (.str s) = .error ("Invalid boolean string: " ++ s)) := by
  refine ⟨fun b => rfl, fun s h => ?_, fun s h => ?_, rfl, fun s h1 h2 => ?_⟩
  · simp only [deserialize_ah_flag]
    rw [if_pos h]
  · simp only [deserialize_ah_flag]
    rw [if_neg ?_, if_pos h]
    · rcases h with h | h | h <;> rw [h] <;> decide
  · simp only [deserialize_ah_flag]
    rw [if_neg h1, if_neg h2]

/-- Witness for C2 at the concrete encodings "TRUE" and "No" and at the
rejected string "2". -/
theorem ah_flag_tolerant_coercion_witness :
    deserialize_ah_flag (.str "TRUE") = .ok (some true) ∧
    deserialize_ah_flag (.str "No") = .ok (some false) ∧
    deserialize_ah_flag (.str "2") = .error "Invalid boolean string: 2" :=
  ⟨ah_flag_tolerant_coercion.2.1 "TRUE" (Or.inl rfl),
   ah_flag_tolerant_coercion.2.2.1 "No" (Or.inr (Or.inr rfl)),
   ah_flag_tolerant_coercion.2.2.2.2 "2" (by decide) (by decide)⟩

/-- Claim C3: for every symbol list of length 1 through 25 the quote
request build succeeds; for length 26 or more it fails with the
too-many-symbols error, and the pipeline's outcome does not depend on the
transport at all (no network call can influence it). -/
theorem quote_symbol_count_bound (symbols : List String) :
    (1 ≤ symbols.length ∧ symbols.length ≤ 25 →
      build_quote_request symbols =
        .ok { method := "GET", path := "/v1/market/quote/" ++ joinWith "," symbols }) ∧
    (26 ≤ symbols.length →
      build_quote_request symbols = .error "Maximum of 25 symbols allowed" ∧
      ∀ send send', quote_pipeline symbols send = quote_pipeline symbols send') := by
  constructor
  · intro h
    simp only [build_quote_request]
    rw [if_neg (by omega)]
  · intro h
    have hb : build_quote_request symbols = .error "Maximum of 25 symbols allowed" := by
      simp only [build_quote_request]
      rw [if_pos (by omega)]
    refine ⟨hb, fun send send' => ?_⟩
    simp only [quote_pipeline, hb]

/-- Witness for C3 at a one-symbol list and a 26-symbol list. -/
theorem quote_symbol_count_bound_witness :
    build_quote_request ["GOOG"] =
      .ok { method := "GET", path := "/v1/market/quote/GOOG" } ∧
    build_quote_request (List.replicate 26 "A") = .error "Maximum of 25 symbols allowed" :=
  ⟨(quote_symbol_count_bound ["GOOG"]).1 ⟨by decide, by decide⟩,
   ((quote_symbol_count_bound (List.replicate 26 "A")).2 (by decide)).1⟩

/-- Claim C4: the path segment built by quote is the input symbols joined
with commas verbatim; splitting the joined segment back on commas
recovers the input list exactly — order preserved, no deduplication, no
per-symbol transformation. -/
theorem quote_path_join_verbatim (symbols : List String)
    (hlen : symbols.length ≤ 25) (hne : symbols ≠ [])
    (hc : ∀ s ∈ symbols, ',' ∉ s.data) :
    build_quote_request symbols =
      .ok { method := "GET", path := "/v1/market/quote/" ++ joinWith "," symbols } ∧
    ((joinWith "," symbols).data.splitOn ',').map String.mk = symbols := by
  constructor
  · simp only [build_quote_request]
    rw [if_neg (by omega)]
  · rw [joinWith_data]
    rw [List.splitOn_intercalate (symbols.map String.data) ',' (by simpa using hc)
      (by simpa using hne)]
    simp only [List.map_map]
    exact List.map_id'' (fun s => rfl) symbols

/-- Witness for C4 at a list with a duplicate, showing the segment keeps
the duplicate and the order. -/
theorem quote_path_join_verbatim_witness :
    build_quote_request ["IBM", "GOOG", "IBM"] =
      .ok { method := "GET", path := "/v1/market/quote/IBM,GOOG,IBM" } ∧
    (("IBM,GOOG,IBM" : String).data.splitOn ',').map String.mk = ["IBM", "GOOG", "IBM"] :=
  quote_path_join_verbatim ["IBM", "GOOG", "IBM"] (by decide) (by decide) (by decide)

/-- Claim C5: the default value for an unspecified expiration-type filter
is `All`: the source's `Default` impl for `ExpiryType` returns `All`, so
a request whose optional filter is omitted has effective filter `All`
whatever its symbol is. -/
theorem expiry_filter_default_all :
    ExpiryType.default = ExpiryType.All ∧
    ∀ s, GetOptionExpireDatesRequest.effectiveExpiryType { symbol := s } = ExpiryType.All :=
  ⟨rfl, fun _ => rfl⟩

/-- Claim C6 counterexample: for a numeric after-hours value (neither
boolean, accepted string, nor null) the decode error is the fixed message
"Expected boolean or string"; the message is identical for distinct
inputs and contains no character of the raw value `7`, so it does not
name the offending raw value. -/
theorem ah_flag_error_context_counterexample :
    deserialize_ah_flag (.num 7) = .error "Expected boolean or string" ∧
    deserialize_ah_flag (.arr []) = .error "Expected boolean or string" ∧
    "Expected boolean or string".data.count '7' = 0 :=
  ⟨rfl, rfl, by decide⟩

/-- Claim C6 as amended: a rejected *string* value fails with an error
naming the offending raw string; every non-boolean, non-string, non-null
value fails with the fixed error "Expected boolean or string" that does
not include the raw value. -/
theorem ah_flag_error_context_amended :
    (∀ s, ¬(rustToLowercase s = "true" ∨ rustToLowercase s = "1" ∨ rustToLowercase s = "yes") →
      ¬(rustToLowercase s = "false" ∨ rustToLowercase s = "0" ∨ rustToLowercase s = "no") →
      deserialize_ah_flag (.str s) = .error ("Invalid boolean string: " ++ s)) ∧
    (∀ q, deserialize_ah_flag (.num q) = .error "Expected boolean or string") ∧
    (∀ xs, deserialize_ah_flag (.arr xs) = .error "Expected boolean or string") ∧
    (∀ fs, deserialize_ah_flag (.obj fs) = .error "Expected boolean or string") := by
  refine ⟨fun s h1 h2 => ?_, fun q => rfl, fun xs => rfl, fun fs => rfl⟩
  simp only [deserialize_ah_flag]
  rw [if_neg h1, if_neg h2]

/-- Witness for the amended C6 at the rejected string "maybe". -/
theorem ah_flag_error_context_amended_witness :
    deserialize_ah_flag (.str "maybe") = .error "Invalid boolean string: maybe" :=
  ah_flag_error_context_amended.1 "maybe" (by decide) (by decide)

/-- Claim C7: decoding a `QuoteResponse` envelope whose Messages field is
absent, or whose `Messages.Message` array is empty, succeeds and yields a
present Messages container that is empty — never a missing-field decode
error. -/
theorem messages_empty_but_present :
    decodeQuoteResponse (.obj [("QuoteData", .arr [minimalQuoteData])]) =
      .ok { quote_data := [{ all := some { last_trade := some 100,
                                           company_name := some "TEST COMPANY" } }] } ∧
    decodeQuoteResponse (.obj [("QuoteData", .arr [minimalQuoteData]),
                               ("Messages", .obj [("Message", .arr [])])]) =
      .ok { quote_data := [{ all := some { last_trade := some 100,
                                           company_name := some "TEST COMPANY" } }] } ∧
    Messages.is_empty ({} : QuoteResponse).messages = true :=
  ⟨rfl, rfl, rfl⟩

/-- Claim C8: decoding an envelope whose only content is
`QuoteData[0].All.companyName` and `.lastTrade` yields exactly one
record with those two fields populated and every other optional field of
the record and of `All` (including `ask` and `bid`) equal to `none`. -/
theorem minimal_quote_decode :
    decodeQuoteResponse (.obj [("QuoteData", .arr [minimalQuoteData])]) =
      .ok { quote_data :=
              [{ all := some
                   { ask := none, bid := none, last_trade := some 100,
                     company_name := some "TEST COMPANY", high := none,
                     low := none, «open» := none, previous_close := none,
                     total_volume := none, change_close := none,
                     change_close_percentage := none, days_to_expiration := none,
                     open_interest := none, option_style := none,
                     option_underlier := none, intrinsic_value := none,
                     time_premium := none, option_multiplier := none,
                     contract_size := none, expiration_date := none,
                     delta := none, gamma := none, theta := none, vega := none,
                     implied_volatility := none },
                 date_time := none, date_time_utc := none, quote_status := none,
                 ah_flag := none, error_message := none, fundamental := none,
                 intraday := none, option := none, product := none,
                 week52 := none, mutual_fund := none, time_zone := none,
                 dst_flag := none, has_mini_options := none }],
            messages := { message := [] } } :=
  rfl

/-- Claim C9: the symbol-count validation checks only the upper bound —
the empty symbol list passes, the path is built, and the pipeline
proceeds to dispatch the request to the transport. -/
theorem empty_symbol_list_passes :
    build_quote_request [] = .ok { method := "GET", path := "/v1/market/quote/" } ∧
    ∀ send, quote_pipeline [] send = quoteDecodeStep (send "/v1/market/quote/") :=
  ⟨rfl, fun _ => rfl⟩

/-- Claim C10: each absent calendar component of an `ExpirationDate`
decodes to `0` rather than failing, and a document with an absent
component decodes identically to one carrying an explicit `0`. -/
theorem expiration_date_component_defaults :
    (∀ fields r, fields.lookup "year" = none →
      decodeExpirationDate (.obj fields) = .ok r → r.year = 0) ∧
    (∀ fields r, fields.lookup "month" = none →
      decodeExpirationDate (.obj fields) = .ok r → r.month = 0) ∧
    (∀ fields r, fields.lookup "day" = none →
      decodeExpirationDate (.obj fields) = .ok r → r.day = 0) ∧
    decodeExpirationDate (.obj [("month", .num 7), ("day", .num 2)]) =
      .ok { year := 0, month := 7, day := 2 } ∧
    decodeExpirationDate (.obj []) =
      decodeExpirationDate (.obj [("year", .num 0), ("month", .num 0), ("day", .num 0)]) := by
  refine ⟨?_, ?_, ?_, rfl, rfl⟩ <;> intro fields r h hdec <;>
    simp only [decodeExpirationDate] at hdec <;>
    obtain ⟨y, hy, hdec⟩ := except_bind_ok hdec <;>
    obtain ⟨m, hm, hdec⟩ := except_bind_ok hdec <;>
    obtain ⟨d, hd, hdec⟩ := except_bind_ok hdec <;>
    obtain ⟨et, het, hdec⟩ := except_bind_ok hdec <;>
    cases hdec
  · rw [getIntFieldD, h] at hy
    cases hy
    rfl
  · rw [getIntFieldD, h] at hm
    cases hm
    rfl
  · rw [getIntFieldD, h] at hd
    cases hd
    rfl

/-- Witness for C10 at a document lacking the year component. -/
theorem expiration_date_component_defaults_witness :
    ({ month := 7 } : ExpirationDate).year = 0 :=
  expiration_date_component_defaults.1 [("month", .num 7)] { month := 7 } rfl rfl

end Etrade
